import Mathlib

/-!
Shallow embedding of the capture-state / debounce / batch / dispatch pipeline
of LuumaCursorHelper (src/src/lib.rs).

Modelling conventions:
* `f64` values are represented by their IEEE-754 bit patterns (`F64.bits : Nat`);
  the only operations the pipeline performs on positions are `f64::to_bits` /
  `f64::from_bits` (raw transmutes in Rust), which are therefore mutually
  inverse bijections by construction, and equality of `F64` is bit-for-bit
  equality.
* `HCURSOR` handles are represented by `Nat` (the code stores them as
  `usize` / `u64`); `HCURSOR::default()` is the null handle `0`.
* Clock readings (`SystemTime` milliseconds, `Instant` instants) are `Nat`
  parameters passed in explicitly; `u64::saturating_sub` is `Nat` subtraction.
* Channel sends (`Sender::send`) are modelled as an output list of batches
  produced by each operation; the mpsc channel itself appears as the FIFO
  `queue` of `PipeState` in the interleaving model of the dispatcher.
* `println!` logging calls (`log_message`, `log_cursor_state`) produce no
  state and no events and are omitted.
-/

/-- Bit pattern of a Rust `f64` (src/src/lib.rs stores positions via
`f64::to_bits` in an `AtomicU64` and reads them back with `f64::from_bits`). -/
structure F64 where
  bits : Nat
deriving DecidableEq, Repr

/-- Rust `f64::to_bits` (a raw transmute). -/
def F64.toBits (x : F64) : Nat := x.bits

/-- Rust `f64::from_bits` (a raw transmute). -/
def F64.fromBits (b : Nat) : F64 := ⟨b⟩

/-- `MouseButton` from src/src/lib.rs. -/
inductive MouseButton where
  | Left
  | Right
  | Middle
deriving DecidableEq, Repr

/-- `CursorEvent` from src/src/lib.rs. -/
inductive CursorEvent where
  | Move (position : F64 × F64) (cursor_type : String) (timestamp : String)
  | Click (button : MouseButton) (position : F64 × F64) (timestamp : String)
  | Release (button : MouseButton) (timestamp : String)
  | TypeChange (new_type : String) (position : F64 × F64) (timestamp : String)
deriving DecidableEq, Repr

/-- `CachedCursor` from src/src/lib.rs: a cursor handle (stored as `usize`)
paired with its static name. -/
structure CachedCursor where
  handle : Nat
  name : String
deriving DecidableEq, Repr

/-- `get_cached_cursor_type` from src/src/lib.rs: linear scan of the cursor
cache for the handle, returning the first matching name, else "custom".
The cache (built once by `init_cursor_cache` from `LoadCursorW` results) is
passed explicitly. -/
def get_cached_cursor_type (cache : List CachedCursor) (cursor_handle : Nat) : String :=
  match cache.find? (fun cached_cursor => cursor_handle == cached_cursor.handle) with
  | some cached_cursor => cached_cursor.name
  | none => "custom"

/-- A concrete instance of the cursor cache of `init_cursor_cache`
(src/src/lib.rs): the 17 standard cursors, each with a nonzero handle
(`LoadCursorW` yields a handle only on success, and a successful load never
returns the null handle). -/
def sample_cursor_cache : List CachedCursor :=
  [⟨1, "arrow"⟩, ⟨2, "ibeam"⟩, ⟨3, "wait"⟩, ⟨4, "cross"⟩, ⟨5, "up_arrow"⟩,
   ⟨6, "size"⟩, ⟨7, "size_nw_se"⟩, ⟨8, "size_ne_sw"⟩, ⟨9, "size_we"⟩,
   ⟨10, "size_ns"⟩, ⟨11, "size_all"⟩, ⟨12, "no"⟩, ⟨13, "hand"⟩,
   ⟨14, "app_starting"⟩, ⟨15, "help"⟩, ⟨16, "pin"⟩, ⟨17, "person"⟩]

/-- `SmartEventBatcher` from src/src/lib.rs. The `Sender` end of the channel
is modelled by returning sent batches as an explicit output list. -/
structure SmartEventBatcher where
  events : List CursorEvent
  last_flush : Nat
  flush_interval : Nat
  max_buffer_size : Nat
deriving DecidableEq, Repr

/-- `SmartEventBatcher::new` (src/src/lib.rs): `last_flush = Instant::now()`
is the construction time `now`. -/
def SmartEventBatcher.new (flush_interval_ms : Nat) (max_size : Nat) (now : Nat) :
    SmartEventBatcher :=
  { events := [], last_flush := now, flush_interval := flush_interval_ms,
    max_buffer_size := max_size }

/-- `SmartEventBatcher::flush` (src/src/lib.rs): if the buffer is non-empty,
take it, send it as one batch, and reset `last_flush` to now; otherwise do
nothing. Returns the updated batcher and the list of batches sent. -/
def SmartEventBatcher.flush (b : SmartEventBatcher) (now : Nat) :
    SmartEventBatcher × List (List CursorEvent) :=
  if b.events.isEmpty then (b, [])
  else ({ b with events := [], last_flush := now }, [b.events])

/-- `SmartEventBatcher::force_flush` (src/src/lib.rs): just calls `flush`. -/
def SmartEventBatcher.force_flush (b : SmartEventBatcher) (now : Nat) :
    SmartEventBatcher × List (List CursorEvent) :=
  b.flush now

/-- `SmartEventBatcher::add_event` (src/src/lib.rs): push the event, then
flush (returning true) when the buffer length has reached `max_buffer_size`
or `last_flush.elapsed() >= flush_interval`; otherwise return false. -/
def SmartEventBatcher.add_event (b : SmartEventBatcher) (event : CursorEvent) (now : Nat) :
    Bool × SmartEventBatcher × List (List CursorEvent) :=
  let b1 := { b with events := b.events ++ [event] }
  if b1.max_buffer_size ≤ b1.events.length ∨ b1.flush_interval ≤ now - b1.last_flush then
    let fr := b1.flush now
    (true, fr.1, fr.2)
  else
    (false, b1, [])

/-- `AtomicDebouncer` from src/src/lib.rs (the atomics become plain fields:
there is a single producer thread calling it, and state passing is explicit). -/
structure AtomicDebouncer where
  last_check_ms : Nat
  interval_ms : Nat
  last_cursor_handle : Nat
deriving DecidableEq, Repr

/-- `AtomicDebouncer::new` (src/src/lib.rs): both atomics start at 0. -/
def AtomicDebouncer.new (interval_ms : Nat) : AtomicDebouncer :=
  { last_check_ms := 0, interval_ms := interval_ms, last_cursor_handle := 0 }

/-- `AtomicDebouncer::should_check` (src/src/lib.rs): `now_ms` is the
`SystemTime` reading in milliseconds; `saturating_sub` is `Nat` subtraction.
Returns the boolean and the updated debouncer (the store happens only in the
true branch). -/
def AtomicDebouncer.should_check (d : AtomicDebouncer) (now_ms : Nat) :
    Bool × AtomicDebouncer :=
  if d.interval_ms ≤ now_ms - d.last_check_ms then
    (true, { d with last_check_ms := now_ms })
  else
    (false, d)

/-- `AtomicDebouncer::has_changed` (src/src/lib.rs): swap the handle in and
report whether it differs from the previously stored one. -/
def AtomicDebouncer.has_changed (d : AtomicDebouncer) (cursor_handle : Nat) :
    Bool × AtomicDebouncer :=
  (decide (cursor_handle ≠ d.last_cursor_handle),
   { d with last_cursor_handle := cursor_handle })

/-- `AtomicCursorState` from src/src/lib.rs: position stored as the bits of
each `f64` coordinate, plus the two button flags. -/
structure AtomicCursorState where
  position_x : Nat
  position_y : Nat
  left_click : Bool
  right_click : Bool
deriving DecidableEq, Repr

/-- `AtomicCursorState::new` (src/src/lib.rs). -/
def AtomicCursorState.new : AtomicCursorState :=
  { position_x := 0, position_y := 0, left_click := false, right_click := false }

/-- `AtomicCursorState::update_position` (src/src/lib.rs): stores
`x.to_bits()` and `y.to_bits()`. -/
def AtomicCursorState.update_position (s : AtomicCursorState) (x y : F64) :
    AtomicCursorState :=
  { s with position_x := x.toBits, position_y := y.toBits }

/-- `AtomicCursorState::get_position` (src/src/lib.rs): reads the stored bits
back through `f64::from_bits`. -/
def AtomicCursorState.get_position (s : AtomicCursorState) : F64 × F64 :=
  (F64.fromBits s.position_x, F64.fromBits s.position_y)

/-- Explicit state-passing form of `get_position`: the Rust method takes
`&self` and mutates nothing, so a read returns the pair and the unchanged
state. -/
def AtomicCursorState.read_position (s : AtomicCursorState) :
    (F64 × F64) × AtomicCursorState :=
  (s.get_position, s)

/-- `AtomicCursorState::set_left_click` (src/src/lib.rs). -/
def AtomicCursorState.set_left_click (s : AtomicCursorState) (clicked : Bool) :
    AtomicCursorState :=
  { s with left_click := clicked }

/-- `AtomicCursorState::set_right_click` (src/src/lib.rs). -/
def AtomicCursorState.set_right_click (s : AtomicCursorState) (clicked : Bool) :
    AtomicCursorState :=
  { s with right_click := clicked }

/-- `AtomicCursorState::get_left_click` (src/src/lib.rs). -/
def AtomicCursorState.get_left_click (s : AtomicCursorState) : Bool :=
  s.left_click

/-- `AtomicCursorState::get_right_click` (src/src/lib.rs). -/
def AtomicCursorState.get_right_click (s : AtomicCursorState) : Bool :=
  s.right_click

/-- Raw input events delivered by `rdev::listen` that the producer callback
matches on (src/src/lib.rs, `start_monitoring`): `MouseMove`, press/release
of a button, and a catch-all for everything else (the source's match has
explicit arms only for `Button::Left` and `Button::Right` presses and
releases; `Middle` and all other event types fall into the wildcard arm). -/
inductive RawEvent where
  | MouseMove (x y : F64)
  | ButtonPress (button : MouseButton)
  | ButtonRelease (button : MouseButton)
  | Other
deriving DecidableEq, Repr

/-- Environment of one producer-callback invocation: the `SystemTime`
millisecond reading used by `should_check`, the results of the two
`GetCursorInfo` calls on the move path (`some handle` on success, `none` on
failure), and the timestamp string produced by `get_timestamp`. (The third
`GetCursorInfo` call on the move path only feeds `log_cursor_state` and is
omitted with the logging.) -/
structure ProducerEnv where
  now_ms : Nat
  os_check : Option Nat
  os_move : Option Nat
  ts : String
deriving DecidableEq, Repr

/-- State captured by the `listen` closure that the callback mutates:
the shared atomic cursor state and the cursor debouncer. -/
structure ProducerState where
  atomic_state : AtomicCursorState
  cursor_debouncer : AtomicDebouncer
deriving DecidableEq, Repr

/-- Shape label attached to a `Move` event (src/src/lib.rs,
`start_monitoring` move arm): the handle from `GetCursorInfo` on success,
`HCURSOR::default()` (the null handle 0) on failure, looked up in the cache. -/
def move_shape_label (cache : List CachedCursor) (os_move : Option Nat) : String :=
  get_cached_cursor_type cache
    (match os_move with
     | some h => h
     | none => 0)

/-- The `EventType::MouseMove` arm of the producer callback
(src/src/lib.rs, `start_monitoring`). Returns the updated captured state and
the list of batches sent on the channel by this invocation. -/
def handle_mouse_move (cache : List CachedCursor) (has_handlers : Bool)
    (env : ProducerEnv) (st : ProducerState) (x y : F64) :
    ProducerState × List (List CursorEvent) :=
  let new_position := (x, y)
  let current_position := st.atomic_state.get_position
  if new_position ≠ current_position then
    let as1 := st.atomic_state.update_position x y
    if has_handlers then
      let sc := st.cursor_debouncer.should_check env.now_ms
      let tcr : List CursorEvent × AtomicDebouncer :=
        if sc.1 then
          match env.os_check with
          | some h =>
            let hc := sc.2.has_changed h
            if hc.1 then
              ([CursorEvent.TypeChange (get_cached_cursor_type cache h) new_position env.ts],
               hc.2)
            else ([], hc.2)
          | none => ([], sc.2)
        else ([], sc.2)
      let events := tcr.1 ++
        [CursorEvent.Move new_position (move_shape_label cache env.os_move) env.ts]
      (⟨as1, tcr.2⟩, [events])
    else
      (⟨as1, st.cursor_debouncer⟩, [])
  else
    (st, [])

/-- The producer callback registered with `listen`
(src/src/lib.rs, `start_monitoring`): an early return when `running` is
cleared, then the match on the raw event type. Button arms are
edge-triggered against the recorded button state; each send on the channel
is a singleton batch. Returns the updated captured state and the batches
sent. -/
def producer_callback (cache : List CachedCursor) (has_handlers running : Bool)
    (env : ProducerEnv) (st : ProducerState) (ev : RawEvent) :
    ProducerState × List (List CursorEvent) :=
  if !running then (st, [])
  else
    match ev with
    | RawEvent.MouseMove x y => handle_mouse_move cache has_handlers env st x y
    | RawEvent.ButtonPress MouseButton.Left =>
      if !st.atomic_state.get_left_click then
        let as1 := st.atomic_state.set_left_click true
        if has_handlers then
          let position := as1.get_position
          ({ st with atomic_state := as1 },
           [[CursorEvent.Click MouseButton.Left position env.ts]])
        else
          ({ st with atomic_state := as1 }, [])
      else (st, [])
    | RawEvent.ButtonRelease MouseButton.Left =>
      if st.atomic_state.get_left_click then
        let as1 := st.atomic_state.set_left_click false
        if has_handlers then
          ({ st with atomic_state := as1 },
           [[CursorEvent.Release MouseButton.Left env.ts]])
        else
          ({ st with atomic_state := as1 }, [])
      else (st, [])
    | RawEvent.ButtonPress MouseButton.Right =>
      if !st.atomic_state.get_right_click then
        let as1 := st.atomic_state.set_right_click true
        if has_handlers then
          let position := as1.get_position
          ({ st with atomic_state := as1 },
           [[CursorEvent.Click MouseButton.Right position env.ts]])
        else
          ({ st with atomic_state := as1 }, [])
      else (st, [])
    | RawEvent.ButtonRelease MouseButton.Right =>
      if st.atomic_state.get_right_click then
        let as1 := st.atomic_state.set_right_click false
        if has_handlers then
          ({ st with atomic_state := as1 },
           [[CursorEvent.Release MouseButton.Right env.ts]])
        else
          ({ st with atomic_state := as1 }, [])
      else (st, [])
    | _ => (st, [])

/-- `CursorDetector::get_cursor_type` (src/src/lib.rs): on `GetCursorInfo`
success the cached name of the returned handle, on failure the sentinel
"error". -/
def CursorDetector.get_cursor_type (cache : List CachedCursor) (os : Option Nat) : String :=
  match os with
  | some h => get_cached_cursor_type cache h
  | none => "error"

/-- `CursorDetector` fields relevant to the lifecycle operations
(src/src/lib.rs). The boxed `callback` / `event_handler` function values are
abstracted to their presence (`is_some()`), which is all `has_handlers`
inspects; `processing_thread` is `some joinOk` for a live `JoinHandle`
whose `join()` returns Ok exactly when `joinOk` (i.e. the thread did not
panic), or `none` once taken. -/
structure CursorDetector where
  atomic_state : AtomicCursorState
  has_callback : Bool
  has_event_handler : Bool
  event_batcher : Option SmartEventBatcher
  processing_thread : Option Bool
  running : Bool
deriving DecidableEq, Repr

/-- `CursorDetector::has_handlers` (src/src/lib.rs):
`event_handler.is_some() || callback.is_some()`. -/
def CursorDetector.has_handlers (d : CursorDetector) : Bool :=
  d.has_event_handler || d.has_callback

/-- `CursorDetector::stop` (src/src/lib.rs): clear `running`, `force_flush`
the batcher if present, then take and join the processing thread. Returns
the `Result`, the detector state afterwards, the batches sent by the flush,
and whether a join was attempted (`processing_thread.take()` found a
handle). -/
def CursorDetector.stop (d : CursorDetector) (now : Nat) :
    Except String Unit × CursorDetector × List (List CursorEvent) × Bool :=
  let d1 : CursorDetector := { d with running := false }
  let fr : Option SmartEventBatcher × List (List CursorEvent) :=
    match d1.event_batcher with
    | some b =>
      let r := b.force_flush now
      (some r.1, r.2)
    | none => (none, [])
  let d2 : CursorDetector := { d1 with event_batcher := fr.1 }
  match d2.processing_thread with
  | some joinOk =>
    let d3 : CursorDetector := { d2 with processing_thread := none }
    if joinOk then (Except.ok (), d3, fr.2, true)
    else (Except.error "Failed to join thread", d3, fr.2, true)
  | none => (Except.ok (), d2, fr.2, false)

/-- `Drop for CursorDetector` (src/src/lib.rs): `let _ = self.stop();` —
runs the same stop sequence, discarding the result. -/
def CursorDetector.drop_cleanup (d : CursorDetector) (now : Nat) : CursorDetector :=
  (d.stop now).2.1

/-- Joint state of the shutdown interleaving between `stop()` (the caller's
thread) and the Dispatcher thread running `process_events_with_timeout`
(src/src/lib.rs): the `running` flag, the mpsc channel contents (`queue`,
FIFO of batches), the batcher's pending `buffer`, the events the Dispatcher
has handed to the handler so far (`handled`, in invocation order), whether
the Dispatcher has passed the loop's `running` check and is blocked in
`recv_timeout` (`waiting`), and whether its loop has terminated
(`dispatcher_done`). -/
structure PipeState where
  running : Bool
  queue : List (List CursorEvent)
  buffer : List CursorEvent
  handled : List CursorEvent
  waiting : Bool
  dispatcher_done : Bool
deriving DecidableEq, Repr

/-- Atomic steps of the shutdown interleaving: the Dispatcher evaluates its
`while running` condition (`dCheck`), its `recv_timeout` returns a batch
(`dRecvOk`, possible only when a batch is queued) or times out (`dTimeout`,
possible only when the queue is empty at expiry), and `stop()` performs its
two producer-side actions `running.store(false)` (`sClearRun`) and
`force_flush()` (`sFlush`). `stop()`'s final `join` merely awaits
`dispatcher_done` and needs no step of its own. -/
inductive PipeStep where
  | dCheck
  | dRecvOk
  | dTimeout
  | sClearRun
  | sFlush
deriving DecidableEq, Repr

/-- One step of the shutdown interleaving. Steps whose precondition does not
hold (e.g. the Dispatcher acting after it terminated) leave the state
unchanged. `dRecvOk` appends the whole received batch to `handled`: the
Dispatcher invokes the handler once per event of the batch, in order
(src/src/lib.rs, `process_events_with_timeout`). -/
def pipe_step (s : PipeState) (st : PipeStep) : PipeState :=
  match st with
  | PipeStep.dCheck =>
    if s.dispatcher_done ∨ s.waiting then s
    else if s.running then { s with waiting := true }
    else { s with dispatcher_done := true }
  | PipeStep.dRecvOk =>
    if s.dispatcher_done ∨ ¬ s.waiting then s
    else
      match s.queue with
      | [] => s
      | b :: rest => { s with queue := rest, handled := s.handled ++ b, waiting := false }
  | PipeStep.dTimeout =>
    if s.dispatcher_done ∨ ¬ s.waiting then s
    else if s.queue.isEmpty then { s with waiting := false } else s
  | PipeStep.sClearRun => { s with running := false }
  | PipeStep.sFlush =>
    if s.buffer.isEmpty then s
    else { s with queue := s.queue ++ [s.buffer], buffer := [] }

/-- Run a schedule (list of interleaving steps) from a state. -/
def pipe_run (s : PipeState) : List PipeStep → PipeState
  | [] => s
  | st :: rest => pipe_run (pipe_step s st) rest

/-- Initial state for the shutdown scenario: the pipeline is running, the
Dispatcher is between loop iterations, the channel is empty, and `buf` sits
unflushed in the batcher. -/
def pipe_init (buf : List CursorEvent) : PipeState :=
  { running := true, queue := [], buffer := buf, handled := [],
    waiting := false, dispatcher_done := false }

/-- Iterated `should_check` over a list of successive clock readings,
returning the list of results and the final debouncer state. -/
def should_check_run (d : AtomicDebouncer) : List Nat → List Bool × AtomicDebouncer
  | [] => ([], d)
  | u :: rest =>
    let r := d.should_check u
    let rr := should_check_run r.2 rest
    (r.1 :: rr.1, rr.2)

lemma SmartEventBatcher.flush_of_ne_nil (b : SmartEventBatcher) (now : Nat)
    (h : b.events ≠ []) :
    b.flush now = ({ b with events := [], last_flush := now }, [b.events]) := by
  simp [SmartEventBatcher.flush, h]

lemma SmartEventBatcher.flush_of_nil (b : SmartEventBatcher) (now : Nat)
    (h : b.events = []) :
    b.flush now = (b, []) := by
  simp [SmartEventBatcher.flush, h]

lemma should_check_run_all_false (i t lh : Nat) (times : List Nat)
    (hwin : ∀ u ∈ times, u - t < i) :
    should_check_run ⟨t, i, lh⟩ times = (List.replicate times.length false, ⟨t, i, lh⟩) := by
  induction times with
  | nil => rfl
  | cons u rest ih =>
    have hu : ¬ (i ≤ u - t) := Nat.not_le.mpr (hwin u (by simp))
    simp [should_check_run, AtomicDebouncer.should_check, hu,
      ih (fun v hv => hwin v (by simp [hv])), List.replicate_succ]

/-- Claim C10: `update_position(x, y)` followed by `get_position()` returns a
pair bit-for-bit identical to `(x, y)` — the `to_bits` / `from_bits`
round-trip is the identity on each stored field — and a repeated read
without an intervening update returns the same pair. -/
theorem position_roundtrip (s : AtomicCursorState) (x y : F64) :
    (s.update_position x y).get_position = (x, y) ∧
    (∀ z : F64, F64.fromBits z.toBits = z) ∧
    (∀ b : Nat, (F64.fromBits b).toBits = b) ∧
    (s.update_position x y).read_position.2.read_position.1 =
      (s.update_position x y).read_position.1 :=
  ⟨rfl, fun _ => rfl, fun _ => rfl, rfl⟩

/-- Claim C4: `has_changed(id)` swaps `id` into the stored value and returns
true exactly when it differs from the previously stored one; the stored
value starts at the sentinel 0, so the first call with a non-sentinel id
returns true; a call repeating the previous id returns false; and each
distinct transition yields true exactly once. -/
theorem has_changed_transition (i h h1 h2 : Nat) (d : AtomicDebouncer)
    (hs : h ≠ 0) (hne : h2 ≠ h1) :
    (AtomicDebouncer.new i).last_cursor_handle = 0 ∧
    ((AtomicDebouncer.new i).has_changed h).1 = true ∧
    (d.has_changed d.last_cursor_handle).1 = false ∧
    ((d.has_changed h1).2.has_changed h1).1 = false ∧
    ((d.has_changed h1).2.has_changed h2).1 = true ∧
    (((d.has_changed h1).2.has_changed h2).2.has_changed h2).1 = false := by
  simp [AtomicDebouncer.has_changed, AtomicDebouncer.new, hs, hne]

theorem has_changed_transition_witness :
    ((AtomicDebouncer.new 16).has_changed 5).1 = true ∧
    (((AtomicDebouncer.new 16).has_changed 7).2.has_changed 9).1 = true :=
  ⟨(has_changed_transition 16 5 7 9 (AtomicDebouncer.new 16) (by decide) (by decide)).2.1,
   (has_changed_transition 16 5 7 9 (AtomicDebouncer.new 16) (by decide) (by decide)).2.2.2.2.1⟩

/-- Claim C3: after a `should_check` call that returned true at time `t`,
every call at a time `t'` with `t' - t` below the interval returns false
(and leaves the debouncer unchanged), and the first call at a time `t'`
with `t' - t` at least the interval returns true. -/
theorem should_check_debounce_window (d0 : AtomicDebouncer) (t t' : Nat)
    (times : List Nat)
    (hfirst : (d0.should_check t).1 = true)
    (hwin : ∀ u ∈ times, u - t < d0.interval_ms)
    (hnext : d0.interval_ms ≤ t' - t) :
    (should_check_run (d0.should_check t).2 times).1 =
      List.replicate times.length false ∧
    (should_check_run (d0.should_check t).2 times).2 = (d0.should_check t).2 ∧
    ((should_check_run (d0.should_check t).2 times).2.should_check t').1 = true := by
  obtain ⟨lc, i, lh⟩ := d0
  have hcond : i ≤ t - lc := by
    by_contra hc
    simp [AtomicDebouncer.should_check, hc] at hfirst
  have hst : (AtomicDebouncer.should_check ⟨lc, i, lh⟩ t).2 = ⟨t, i, lh⟩ := by
    simp [AtomicDebouncer.should_check, hcond]
  rw [hst]
  rw [should_check_run_all_false i t lh times hwin]
  exact ⟨rfl, rfl, by simp [AtomicDebouncer.should_check, hnext]⟩

theorem should_check_debounce_window_witness :
    (should_check_run ((AtomicDebouncer.new 16).should_check 100).2
      [105, 110, 115]).1 = List.replicate 3 false ∧
    ((should_check_run ((AtomicDebouncer.new 16).should_check 100).2
      [105, 110, 115]).2.should_check 116).1 = true :=
  ⟨(should_check_debounce_window (AtomicDebouncer.new 16) 100 116 [105, 110, 115]
      (by decide) (by decide) (by decide)).1,
   (should_check_debounce_window (AtomicDebouncer.new 16) 100 116 [105, 110, 115]
      (by decide) (by decide) (by decide)).2.2⟩

/-- Claim C5: `add` appends the event and flushes (sending the whole buffer
as one batch in insertion order, emptying it, and resetting the flush
clock) on exactly those calls where the buffer length has reached the
configured maximum or the elapsed time since the last flush has reached the
flush interval; on all other calls nothing is sent, and the return value is
true exactly when it flushed. -/
theorem add_event_flush_policy (b : SmartEventBatcher) (e : CursorEvent) (now : Nat)
    (hm : b.last_flush ≤ now) :
    ((b.add_event e now).1 = true ↔
      (b.max_buffer_size ≤ b.events.length + 1 ∨
       b.flush_interval ≤ now - b.last_flush)) ∧
    ((b.add_event e now).1 = true →
      (b.add_event e now).2.2 = [b.events ++ [e]] ∧
      (b.add_event e now).2.1.events = [] ∧
      (b.add_event e now).2.1.last_flush = now) ∧
    ((b.add_event e now).1 = false →
      (b.add_event e now).2.2 = [] ∧
      (b.add_event e now).2.1.events = b.events ++ [e] ∧
      (b.add_event e now).2.1.last_flush = b.last_flush) := by
  by_cases hc : b.max_buffer_size ≤ b.events.length + 1 ∨
      b.flush_interval ≤ now - b.last_flush
  · have hr : b.add_event e now =
        (true, { b with events := [], last_flush := now }, [b.events ++ [e]]) := by
      simp [SmartEventBatcher.add_event, SmartEventBatcher.flush, hc]
    rw [hr]
    simp [hc]
  · have hr : b.add_event e now = (false, { b with events := b.events ++ [e] }, []) := by
      simp [SmartEventBatcher.add_event, hc]
    rw [hr]
    simp [hc]

theorem add_event_flush_policy_witness :
    ((SmartEventBatcher.new 50 100 0).add_event
      (CursorEvent.Release MouseButton.Left "t") 60).2.2 =
      [[CursorEvent.Release MouseButton.Left "t"]] :=
  ((add_event_flush_policy (SmartEventBatcher.new 50 100 0)
      (CursorEvent.Release MouseButton.Left "t") 60 (by decide)).2.1 (by decide)).1

/-- Claim C6: `force_flush` on a non-empty buffer sends exactly one batch
containing exactly the buffered events in their original order, after which
the buffer is empty and the flush clock is reset; on an empty buffer it
sends nothing (and changes nothing). -/
theorem force_flush_drains_buffer (b : SmartEventBatcher) (now : Nat) :
    (b.events ≠ [] →
      (b.force_flush now).2 = [b.events] ∧
      (b.force_flush now).1.events = [] ∧
      (b.force_flush now).1.last_flush = now) ∧
    (b.events = [] →
      (b.force_flush now).2 = [] ∧ (b.force_flush now).1 = b) := by
  constructor
  · intro h
    rw [SmartEventBatcher.force_flush, SmartEventBatcher.flush_of_ne_nil b now h]
    exact ⟨rfl, rfl, rfl⟩
  · intro h
    rw [SmartEventBatcher.force_flush, SmartEventBatcher.flush_of_nil b now h]
    exact ⟨rfl, rfl⟩

theorem force_flush_drains_buffer_witness :
    ((⟨[CursorEvent.Release MouseButton.Left "a",
        CursorEvent.Release MouseButton.Right "b",
        CursorEvent.Release MouseButton.Left "c"], 0, 50, 100⟩ :
        SmartEventBatcher).force_flush 7).2 =
      [[CursorEvent.Release MouseButton.Left "a",
        CursorEvent.Release MouseButton.Right "b",
        CursorEvent.Release MouseButton.Left "c"]] :=
  ((force_flush_drains_buffer
      ⟨[CursorEvent.Release MouseButton.Left "a",
        CursorEvent.Release MouseButton.Right "b",
        CursorEvent.Release MouseButton.Left "c"], 0, 50, 100⟩ 7).1 (by decide)).1

/-- Claim C2 counterexample: with 3 events unflushed in the batcher, the
interleaving "Dispatcher passes its `running` check, its `recv_timeout`
expires on the empty channel, `stop()` clears `RUNNING`, `stop()`
force-flushes, Dispatcher re-checks `running`" makes the Dispatcher loop
terminate with the handler never invoked: the flushed tail batch is still
sitting in the channel when the loop exits, so the 3 events are lost. -/
theorem stop_flush_race_counterexample :
    (pipe_run (pipe_init [CursorEvent.Release MouseButton.Left "e1",
        CursorEvent.Release MouseButton.Left "e2",
        CursorEvent.Release MouseButton.Left "e3"])
      [PipeStep.dCheck, PipeStep.dTimeout, PipeStep.sClearRun, PipeStep.sFlush,
       PipeStep.dCheck]).dispatcher_done = true ∧
    (pipe_run (pipe_init [CursorEvent.Release MouseButton.Left "e1",
        CursorEvent.Release MouseButton.Left "e2",
        CursorEvent.Release MouseButton.Left "e3"])
      [PipeStep.dCheck, PipeStep.dTimeout, PipeStep.sClearRun, PipeStep.sFlush,
       PipeStep.dCheck]).handled = [] ∧
    (pipe_run (pipe_init [CursorEvent.Release MouseButton.Left "e1",
        CursorEvent.Release MouseButton.Left "e2",
        CursorEvent.Release MouseButton.Left "e3"])
      [PipeStep.dCheck, PipeStep.dTimeout, PipeStep.sClearRun, PipeStep.sFlush,
       PipeStep.dCheck]).queue ≠ [] := by
  refine ⟨rfl, rfl, ?_⟩
  decide

/-- Claim C2 as amended: `stop()` does clear `RUNNING`, force-flush the
batcher (enqueueing the whole buffer as one batch, in order, on the
channel), and join the Dispatcher thread — but the buffered events are
received and handled, in order, only in interleavings where the
Dispatcher's pending receive obtains the flushed batch before the loop next
observes the cleared `RUNNING` flag; in such an interleaving all three
events are handled in order before the loop terminates. -/
theorem stop_flush_good_schedule (e1 e2 e3 : CursorEvent) :
    (pipe_run (pipe_init [e1, e2, e3]) [PipeStep.sClearRun]).running = false ∧
    (pipe_run (pipe_init [e1, e2, e3])
      [PipeStep.sClearRun, PipeStep.sFlush]).buffer = [] ∧
    (pipe_run (pipe_init [e1, e2, e3])
      [PipeStep.sClearRun, PipeStep.sFlush]).queue = [[e1, e2, e3]] ∧
    (pipe_run (pipe_init [e1, e2, e3])
      [PipeStep.dCheck, PipeStep.sClearRun, PipeStep.sFlush, PipeStep.dRecvOk,
       PipeStep.dCheck]).handled = [e1, e2, e3] ∧
    (pipe_run (pipe_init [e1, e2, e3])
      [PipeStep.dCheck, PipeStep.sClearRun, PipeStep.sFlush, PipeStep.dRecvOk,
       PipeStep.dCheck]).dispatcher_done = true := by
  exact ⟨rfl, rfl, rfl, rfl, rfl⟩

/-- Claim C8 counterexample: a qualifying move handled by the producer
callback while `GetCursorInfo` fails attaches the shape label "custom" (the
cache miss on the default null handle), not the sentinel "error". -/
theorem shape_error_counterexample :
    (producer_callback sample_cursor_cache true true ⟨0, none, none, "t"⟩
      ⟨AtomicCursorState.new, AtomicDebouncer.new 16⟩
      (RawEvent.MouseMove ⟨1⟩ ⟨2⟩)).2 =
      [[CursorEvent.Move (⟨1⟩, ⟨2⟩) "custom" "t"]] ∧
    "custom" ≠ "error" := by
  refine ⟨?_, by decide⟩
  decide

/-- Claim C8 as amended: when the OS cursor-information query fails,
`get_cursor_type` itself degrades to the sentinel "error" with no retry,
but the shape label attached to Move events by the producer callback comes
from looking up the default (null) cursor handle in the cache, which — the
cache holding only nonzero handles — yields "custom", not "error" (and the
TypeChange path emits nothing at all on failure). -/
theorem shape_error_sentinel (cache : List CachedCursor)
    (hz : ∀ c ∈ cache, c.handle ≠ 0) :
    CursorDetector.get_cursor_type cache none = "error" ∧
    (∀ h : Nat, CursorDetector.get_cursor_type cache (some h) =
      get_cached_cursor_type cache h) ∧
    move_shape_label cache none = "custom" := by
  refine ⟨rfl, fun h => rfl, ?_⟩
  have hfind : cache.find? (fun c => (0 : Nat) == c.handle) = none := by
    rw [List.find?_eq_none]
    intro c hc
    simp [hz c hc]
    intro hcontra
    exact hz c hc hcontra.symm
  simp [move_shape_label, get_cached_cursor_type, hfind]

theorem shape_error_sentinel_witness :
    move_shape_label sample_cursor_cache none = "custom" :=
  (shape_error_sentinel sample_cursor_cache (by decide)).2.2

lemma AtomicCursorState.get_update (s : AtomicCursorState) (x y : F64) :
    (s.update_position x y).get_position = (x, y) := rfl

/-- Claim C1: with a handler or callback registered, the producer callback
constructs semantic events for a qualifying move and sends them on the
channel (one batch whose last element is the Move event); with neither
registered it performs no event construction and no send (the sent batch
list is empty and the shape debouncer is never touched); and in both cases
the shared position state holds the move's coordinates afterwards, so
`get_state()` stays accurate. -/
theorem conditional_event_creation (cache : List CachedCursor) (env : ProducerEnv)
    (st : ProducerState) (x y : F64) :
    (∀ ev : RawEvent, (producer_callback cache false true env st ev).2 = []) ∧
    (producer_callback cache false true env st
      (RawEvent.MouseMove x y)).1.atomic_state.get_position = (x, y) ∧
    (producer_callback cache false true env st
      (RawEvent.MouseMove x y)).1.cursor_debouncer = st.cursor_debouncer ∧
    (producer_callback cache true true env st
      (RawEvent.MouseMove x y)).1.atomic_state.get_position = (x, y) ∧
    ((x, y) ≠ st.atomic_state.get_position →
      ∃ pre, (producer_callback cache true true env st (RawEvent.MouseMove x y)).2 =
        [pre ++ [CursorEvent.Move (x, y) (move_shape_label cache env.os_move) env.ts]]) := by
  refine ⟨?_, ?_, ?_, ?_, ?_⟩
  · intro ev
    cases ev with
    | MouseMove a b =>
      by_cases hq : (a, b) ≠ st.atomic_state.get_position
      · simp [producer_callback, handle_mouse_move, hq]
      · simp [producer_callback, handle_mouse_move, hq]
    | ButtonPress b =>
      cases b <;> cases hl : st.atomic_state.get_left_click <;>
        cases hr : st.atomic_state.get_right_click <;>
        simp [producer_callback, hl, hr]
    | ButtonRelease b =>
      cases b <;> cases hl : st.atomic_state.get_left_click <;>
        cases hr : st.atomic_state.get_right_click <;>
        simp [producer_callback, hl, hr]
    | Other => rfl
  · by_cases hq : (x, y) ≠ st.atomic_state.get_position
    · have hstep : producer_callback cache false true env st (RawEvent.MouseMove x y) =
          (⟨st.atomic_state.update_position x y, st.cursor_debouncer⟩, []) := by
        simp [producer_callback, handle_mouse_move, hq]
      rw [hstep]
      exact AtomicCursorState.get_update st.atomic_state x y
    · have hstep : producer_callback cache false true env st (RawEvent.MouseMove x y) =
          (st, []) := by
        simp [producer_callback, handle_mouse_move, hq]
      rw [hstep]
      exact (not_not.mp hq).symm
  · by_cases hq : (x, y) ≠ st.atomic_state.get_position
    · simp [producer_callback, handle_mouse_move, hq]
    · simp [producer_callback, handle_mouse_move, hq]
  · by_cases hq : (x, y) ≠ st.atomic_state.get_position
    · simp [producer_callback, handle_mouse_move, hq, AtomicCursorState.get_update]
    · have hstep : producer_callback cache true true env st (RawEvent.MouseMove x y) =
          (st, []) := by
        simp [producer_callback, handle_mouse_move, hq]
      rw [hstep]
      exact (not_not.mp hq).symm
  · intro hq
    rcases hsc : st.cursor_debouncer.should_check env.now_ms with ⟨sb, d1⟩
    cases sb
    · exact ⟨[], by simp [producer_callback, handle_mouse_move, hq, hsc]⟩
    · cases hoc : env.os_check with
      | none => exact ⟨[], by simp [producer_callback, handle_mouse_move, hq, hsc, hoc]⟩
      | some hcur =>
        rcases hhc : d1.has_changed hcur with ⟨cb, d2⟩
        cases cb
        · exact ⟨[], by simp [producer_callback, handle_mouse_move, hq, hsc, hoc, hhc]⟩
        · exact ⟨[CursorEvent.TypeChange (get_cached_cursor_type cache hcur) (x, y) env.ts],
            by simp [producer_callback, handle_mouse_move, hq, hsc, hoc, hhc]⟩

theorem conditional_event_creation_witness :
    ∃ pre, (producer_callback sample_cursor_cache true true ⟨0, none, some 1, "t"⟩
      ⟨AtomicCursorState.new, AtomicDebouncer.new 16⟩
      (RawEvent.MouseMove ⟨1⟩ ⟨2⟩)).2 =
      [pre ++ [CursorEvent.Move (⟨1⟩, ⟨2⟩)
        (move_shape_label sample_cursor_cache (some 1)) "t"]] :=
  (conditional_event_creation sample_cursor_cache ⟨0, none, some 1, "t"⟩
    ⟨AtomicCursorState.new, AtomicDebouncer.new 16⟩ ⟨1⟩ ⟨2⟩).2.2.2.2 (by decide)

/-- Claim C9: button events are edge-triggered against the recorded button
state: for each of Left and Right, a press while the recorded state is up
produces a Click (when handlers exist) and sets the state down, a release
while the state is down produces a Release and sets it up, and a press
while already down (or a release while already up) changes neither the
state nor sends anything. -/
theorem button_edge_trigger (cache : List CachedCursor) (hh : Bool)
    (env : ProducerEnv) (st : ProducerState) :
    (st.atomic_state.get_left_click = false →
      (producer_callback cache hh true env st
        (RawEvent.ButtonPress MouseButton.Left)).1.atomic_state.get_left_click = true ∧
      (producer_callback cache hh true env st
        (RawEvent.ButtonPress MouseButton.Left)).2 =
        (if hh then [[CursorEvent.Click MouseButton.Left
          st.atomic_state.get_position env.ts]] else [])) ∧
    (st.atomic_state.get_left_click = true →
      producer_callback cache hh true env st
        (RawEvent.ButtonPress MouseButton.Left) = (st, [])) ∧
    (st.atomic_state.get_left_click = true →
      (producer_callback cache hh true env st
        (RawEvent.ButtonRelease MouseButton.Left)).1.atomic_state.get_left_click = false ∧
      (producer_callback cache hh true env st
        (RawEvent.ButtonRelease MouseButton.Left)).2 =
        (if hh then [[CursorEvent.Release MouseButton.Left env.ts]] else [])) ∧
    (st.atomic_state.get_left_click = false →
      producer_callback cache hh true env st
        (RawEvent.ButtonRelease MouseButton.Left) = (st, [])) ∧
    (st.atomic_state.get_right_click = false →
      (producer_callback cache hh true env st
        (RawEvent.ButtonPress MouseButton.Right)).1.atomic_state.get_right_click = true ∧
      (producer_callback cache hh true env st
        (RawEvent.ButtonPress MouseButton.Right)).2 =
        (if hh then [[CursorEvent.Click MouseButton.Right
          st.atomic_state.get_position env.ts]] else [])) ∧
    (st.atomic_state.get_right_click = true →
      producer_callback cache hh true env st
        (RawEvent.ButtonPress MouseButton.Right) = (st, [])) ∧
    (st.atomic_state.get_right_click = true →
      (producer_callback cache hh true env st
        (RawEvent.ButtonRelease MouseButton.Right)).1.atomic_state.get_right_click = false ∧
      (producer_callback cache hh true env st
        (RawEvent.ButtonRelease MouseButton.Right)).2 =
        (if hh then [[CursorEvent.Release MouseButton.Right env.ts]] else [])) ∧
    (st.atomic_state.get_right_click = false →
      producer_callback cache hh true env st
        (RawEvent.ButtonRelease MouseButton.Right) = (st, [])) := by
  refine ⟨?_, ?_, ?_, ?_, ?_, ?_, ?_, ?_⟩ <;> intro h <;>
    simp only [AtomicCursorState.get_left_click,
      AtomicCursorState.get_right_click] at h <;>
    cases hh <;>
    simp [producer_callback, h, AtomicCursorState.get_left_click,
      AtomicCursorState.set_left_click, AtomicCursorState.get_right_click,
      AtomicCursorState.set_right_click, AtomicCursorState.get_position]

theorem button_edge_trigger_witness :
    (producer_callback sample_cursor_cache true true ⟨0, none, none, "t"⟩
      ⟨AtomicCursorState.new, AtomicDebouncer.new 16⟩
      (RawEvent.ButtonPress MouseButton.Left)).1.atomic_state.get_left_click = true ∧
    (producer_callback sample_cursor_cache true true ⟨0, none, none, "t"⟩
      ⟨AtomicCursorState.new, AtomicDebouncer.new 16⟩
      (RawEvent.ButtonPress MouseButton.Right)).2 =
      [[CursorEvent.Click MouseButton.Right
        AtomicCursorState.new.get_position "t"]] :=
  ⟨((button_edge_trigger sample_cursor_cache true ⟨0, none, none, "t"⟩
      ⟨AtomicCursorState.new, AtomicDebouncer.new 16⟩).1 (by rfl)).1,
   ((button_edge_trigger sample_cursor_cache true ⟨0, none, none, "t"⟩
      ⟨AtomicCursorState.new, AtomicDebouncer.new 16⟩).2.2.2.2.1 (by rfl)).2⟩

/-- Claim C7: after a successful `stop()`, a second `stop()` returns Ok,
attempts no second join (the thread handle was already taken), and sends no
additional batch (the buffer was already drained); and `Drop` performs
exactly the `stop()` sequence. -/
theorem stop_idempotent (d : CursorDetector) (t1 t2 : Nat)
    (h : (d.stop t1).1 = Except.ok ()) :
    ((d.stop t1).2.1.stop t2).1 = Except.ok () ∧
    ((d.stop t1).2.1.stop t2).2.2.2 = false ∧
    ((d.stop t1).2.1.stop t2).2.2.1 = [] ∧
    (∀ (d' : CursorDetector) (t : Nat),
      CursorDetector.drop_cleanup d' t = (d'.stop t).2.1) := by
  obtain ⟨as, hc, he, ob, ot, r⟩ := d
  have key : ∃ d2, (CursorDetector.stop ⟨as, hc, he, ob, ot, r⟩ t1).2.1.stop t2 =
      (Except.ok (), d2, [], false) := by
    rcases ot with _ | j
    · rcases ob with _ | ⟨ev, lf, fi, mx⟩
      · exact ⟨_, rfl⟩
      · cases ev
        · exact ⟨_, rfl⟩
        · exact ⟨_, rfl⟩
    · cases j
      · exfalso
        rcases ob with _ | ⟨ev, lf, fi, mx⟩
        · simp [CursorDetector.stop] at h
        · cases ev <;>
            simp [CursorDetector.stop, SmartEventBatcher.force_flush,
              SmartEventBatcher.flush] at h
      · rcases ob with _ | ⟨ev, lf, fi, mx⟩
        · exact ⟨_, rfl⟩
        · cases ev
          · exact ⟨_, rfl⟩
          · exact ⟨_, rfl⟩
  obtain ⟨d2, hd2⟩ := key
  exact ⟨by rw [hd2], by rw [hd2], by rw [hd2], fun d' t => rfl⟩

theorem stop_idempotent_witness :
    ((CursorDetector.stop ⟨AtomicCursorState.new, false, false,
        some (SmartEventBatcher.new 50 100 0), some true, true⟩ 5).2.1.stop 6).1 =
      Except.ok () ∧
    ((CursorDetector.stop ⟨AtomicCursorState.new, false, false,
        some (SmartEventBatcher.new 50 100 0), some true, true⟩ 5).2.1.stop 6).2.2.2 =
      false :=
  ⟨(stop_idempotent ⟨AtomicCursorState.new, false, false,
      some (SmartEventBatcher.new 50 100 0), some true, true⟩ 5 6 (by rfl)).1,
   (stop_idempotent ⟨AtomicCursorState.new, false, false,
      some (SmartEventBatcher.new 50 100 0), some true, true⟩ 5 6 (by rfl)).2.1⟩
